import Mathlib

/-!
Shallow embedding of the AI Multi-Search Assistant server
(`server/app/main.py`, `server/main.py`, `server/tools/rag_search.py`,
`server/tools/db_tool.py`) and proofs about the behaviors its
specification describes.

External collaborators (the LLM provider, the Chroma vector collection,
the PostgreSQL database) are modelled as oracle functions supplied as
parameters; the repository's own Python code is translated function by
function.  The JSON wire between the tools and the handlers is modelled
at the value level (a `Json` inductive): the tools build exactly the
JSON documents that the Python code serializes, and the handlers consume
the parsed value, mirroring `json.dumps`/`json.loads` round-tripping.
Python floats are modelled as rationals.
-/

/-! ### Python string / number primitives used by the source -/

/-- The whitespace characters stripped by Python `str.strip()`. -/
def pyWs (c : Char) : Bool :=
  c = ' ' || c = '\t' || c = '\n' || c = '\r' || c = '\x0b' || c = '\x0c'

/-- Python `str.strip()` on a character list: drop whitespace from both ends. -/
def pyStripList (l : List Char) : List Char :=
  ((l.dropWhile pyWs).reverse.dropWhile pyWs).reverse

/-- Python `str.strip()`. -/
def pyStrip (s : String) : String := String.mk (pyStripList s.data)

/-- Round to the nearest integer, ties to the even integer — the rounding
mode of Python's builtin `round`. -/
def roundHalfEven (q : ℚ) : ℤ :=
  if q - ⌊q⌋ < 1/2 then ⌊q⌋
  else if (1:ℚ)/2 < q - ⌊q⌋ then ⌊q⌋ + 1
  else if ⌊q⌋ % 2 = 0 then ⌊q⌋ else ⌊q⌋ + 1

/-- Python `round(q, 3)`: round to 3 decimal places, ties to even. -/
def pyRound3 (q : ℚ) : ℚ := (roundHalfEven (q * 1000) : ℚ) / 1000

/-! ### JSON values

The tools return JSON strings and the handlers `json.loads` them; we
model the documents themselves. -/

/-- A JSON value. -/
inductive Json where
  | null : Json
  | bool (b : Bool) : Json
  | num (q : ℚ) : Json
  | str (s : String) : Json
  | arr (xs : List Json) : Json
  | obj (fields : List (String × Json)) : Json
deriving Inhabited

mutual

/-- Serialization of a JSON value, modelling Python `json.dumps`
(the `indent=2` pretty-printing whitespace is elided; the claims under
study do not depend on inter-token whitespace). -/
def Json.dumps : Json → String
  | .null => "null"
  | .bool b => if b then "true" else "false"
  | .num q => if q.den = 1 then toString q.num else toString q
  | .str s => "\"" ++ s ++ "\""
  | .arr xs => "[" ++ Json.dumpsItems xs ++ "]"
  | .obj fs => "\x7b" ++ Json.dumpsFields fs ++ "\x7d"

/-- Comma-separated serialization of array items. -/
def Json.dumpsItems : List Json → String
  | [] => ""
  | [x] => Json.dumps x
  | x :: y :: rest => Json.dumps x ++ ", " ++ Json.dumpsItems (y :: rest)

/-- Comma-separated serialization of object fields. -/
def Json.dumpsFields : List (String × Json) → String
  | [] => ""
  | [(k, v)] => "\"" ++ k ++ "\": " ++ Json.dumps v
  | (k, v) :: f :: rest =>
      "\"" ++ k ++ "\": " ++ Json.dumps v ++ ", " ++ Json.dumpsFields (f :: rest)

end

/-- The list payload of a JSON value, `[]` for
non-arrays (used by the multi-turn handler as
`data if isinstance(data, list) else []`). -/
def Json.listOrNil : Json → List Json
  | .arr xs => xs
  | _ => []

/-- Whether a JSON document is an error object, i.e. an object whose
first field is `"error"` bound to a string — the shape of every error
document produced by the tool layer. -/
def Json.isErrorObject : Json → Bool
  | .obj (("error", .str _) :: _) => true
  | _ => false

/-! ### `tools/rag_search.py` — `search_documents`

`search_documents` queries the Chroma collection for the 3 nearest
chunks and post-processes the collaborator's answer.  The collaborator's
answer to one query is modelled by `QueryResults`: `documents` is
`results["documents"][0]` (`none` when the key is missing or falsy),
likewise `metadatas` and `distances`; a `none` entry inside `distances`
models a `null` distance. -/

/-- A chunk's metadata record; `source_file` is the only key read. -/
structure ChunkMetadata where
  source_file : Option String
deriving DecidableEq, Inhabited

/-- The collaborator's answer to one `collection.query` call. -/
structure QueryResults where
  documents : Option (List String)
  metadatas : Option (List ChunkMetadata)
  distances : Option (List (Option ℚ))
deriving DecidableEq, Inhabited

/-- The request issued to the Chroma collection:
`collection.query(query_texts=..., n_results=..., include=[...])`. -/
structure ChromaQuery where
  queryTexts : List String
  nResults : Nat
deriving DecidableEq, Inhabited

/-- Model of `results["metadatas"][0] if results.get("metadatas") else [\x7b\x7d]`. -/
def metadatasOrDefault (r : QueryResults) : List ChunkMetadata :=
  match r.metadatas with
  | some ms => ms
  | none => [⟨none⟩]

/-- Model of `results["distances"][0] if results.get("distances") else [0.0]`. -/
def distancesOrDefault (r : QueryResults) : List (Option ℚ) :=
  match r.distances with
  | some ds => ds
  | none => [some 0]

/-- The triples `zip(results["documents"][0], metadatas, distances)`
iterated by the filtering loop (Python `zip` truncates to the shortest
argument, as does nested `List.zip`). -/
def zippedTriples (r : QueryResults) : List (String × ChunkMetadata × Option ℚ) :=
  (r.documents.getD []).zip ((metadatasOrDefault r).zip (distancesOrDefault r))

/-- Model of `similarity_score = round(1 - distance, 3) if distance is not None else 0.0`. -/
def similarityScore : Option ℚ → ℚ
  | some d => pyRound3 (1 - d)
  | none => 0

/-- The constant `relevance_threshold = 0.3`. -/
def relevance_threshold : ℚ := 3/10

/-- One element of the returned array:
`{"chunk_id": i + 1, "content": chunk, "source": source}`. -/
structure FormattedChunk where
  chunk_id : Nat
  content : String
  source : String
deriving DecidableEq, Inhabited

/-- The filtering loop of `search_documents`
(`for i, (chunk, metadata, distance) in enumerate(zip(...))`):
starting at index `i`, keep the chunks whose similarity score meets the
threshold, labelling each kept chunk with `i + 1` for its enumeration
index `i` and `metadata.get("source_file", "Unknown document")` for its
source. -/
def formatChunks (i : Nat) : List (String × ChunkMetadata × Option ℚ) → List FormattedChunk
  | [] => []
  | (chunk, meta, dist) :: rest =>
      if relevance_threshold ≤ similarityScore dist then
        ⟨i + 1, chunk, meta.source_file.getD "Unknown document"⟩ :: formatChunks (i + 1) rest
      else
        formatChunks (i + 1) rest

/-- The three possible return documents of `search_documents`. -/
inductive SearchOutput where
  | errorNoDocuments : SearchOutput
  | errorBelowThreshold : SearchOutput
  | results (chunks : List FormattedChunk) : SearchOutput
deriving DecidableEq, Inhabited

/-- The chunks of a non-error result (`[]` for the error documents). -/
def SearchOutput.resultChunks : SearchOutput → List FormattedChunk
  | .results cs => cs
  | _ => []

/-- The JSON document `search_documents` serializes and returns. -/
def SearchOutput.toJson : SearchOutput → Json
  | .errorNoDocuments => .obj [("error", .str "No relevant documents found.")]
  | .errorBelowThreshold =>
      .obj [("error", .str "No relevant documents found that meet the relevance threshold.")]
  | .results cs =>
      .arr (cs.map fun c =>
        .obj [("chunk_id", .num c.chunk_id), ("content", .str c.content),
              ("source", .str c.source)])

/-- The body of `search_documents` applied to the collaborator's answer:
guard against a missing or empty document list, filter by the relevance
threshold, and return an error document when nothing survives. -/
def search_documents_core (r : QueryResults) : SearchOutput :=
  match r.documents with
  | none => .errorNoDocuments
  | some [] => .errorNoDocuments
  | some _ =>
      let fc := formatChunks 0 (zippedTriples r)
      if fc = [] then .errorBelowThreshold else .results fc

/-- Model of `search_documents(query)`: issue
`collection.query(query_texts=[query], n_results=3, ...)` to the
collaborator and post-process its answer. -/
def search_documents (collab : ChromaQuery → QueryResults) (query : String) : SearchOutput :=
  search_documents_core (collab ⟨[query], 3⟩)

/-! ### `tools/db_tool.py` — `query_database`

`query_database` asks the LLM collaborator to translate a question into
SQL, strips a surrounding markdown code fence with
`re.search(r"```(?:sql)?\s*(.*?)\s*```", sql_query, re.DOTALL)`, and
executes the resulting statement.  The regex search is embedded as an
explicit scan: the leftmost position where three backticks open a fence
that is closed by three later backticks wins; an optional `sql` tag right
after the opening fence is consumed; the lazy group together with the
final `.strip()` yields the fence's interior with surrounding whitespace
removed. -/

/-- Whether a character list starts with three backticks. -/
def startsWithTicks (l : List Char) : Bool :=
  match l with
  | '\x60' :: '\x60' :: '\x60' :: _ => true
  | _ => false

/-- Split a character list at the first occurrence of three backticks:
`some (before, after)` where `after` follows the backticks. -/
def splitAtTicks : List Char → Option (List Char × List Char)
  | [] => none
  | c :: cs =>
      if startsWithTicks (c :: cs) then some ([], cs.drop 2)
      else
        match splitAtTicks cs with
        | some (pre, post) => some (c :: pre, post)
        | none => none

/-- Try to match the fence regex at the very start of the list: an
opening `` ``` ``, an optional `sql` tag, then the lazy group up to the
first closing `` ``` ``.  Returns the matched group. -/
def matchFenceHere (l : List Char) : Option (List Char) :=
  if startsWithTicks l then
    let r := l.drop 3
    let r2 := match r with
      | 's' :: 'q' :: 'l' :: rest => rest
      | _ => r
    match splitAtTicks r2 with
    | some (pre, _) => some pre
    | none => none
  else none

/-- Model of `re.search` for the fence pattern: try every start position from the
left, returning the first successful match's group. -/
def searchFence : List Char → Option (List Char)
  | [] => none
  | c :: cs =>
      match matchFenceHere (c :: cs) with
      | some g => some g
      | none => searchFence cs

/-- The SQL-cleaning step of `query_database`:
`sql_query = llm.invoke(prompt).content.strip()`, then the fence search;
on a match `sql_query = match.group(1).strip()`, otherwise
`sql_query = sql_query.strip()`. -/
def clean_sql (content : String) : String :=
  let t := pyStripList content.data
  match searchFence t with
  | some g => String.mk (pyStripList g)
  | none => String.mk (pyStripList t)

/-- A SQL cell value as the `psycopg` driver hands it to the tool; the
`users` schema produces integers, text, booleans, `NUMERIC` decimals
(modelled as a scaled integer count of cents) and NULLs. -/
inductive PyValue where
  | int (n : ℤ) : PyValue
  | text (s : String) : PyValue
  | bool (b : Bool) : PyValue
  | null : PyValue
  | decimal (cents : ℤ) : PyValue
deriving DecidableEq, Inhabited

/-- Model of `str(Decimal(...))` for a two-decimal-place `NUMERIC(10, 2)` value. -/
def decimalString (cents : ℤ) : String :=
  let a := cents.natAbs
  (if cents < 0 then "-" else "") ++ toString (a / 100) ++ "." ++
    (if a % 100 < 10 then "0" else "") ++ toString (a % 100)

/-- Model of `json.dumps(..., default=str)` on a cell value: native JSON types
pass through, a `Decimal` is stringified. -/
def PyValue.toJson : PyValue → Json
  | .int n => .num n
  | .text s => .str s
  | .bool b => .bool b
  | .null => .null
  | .decimal c => .str (decimalString c)

/-- Python `dict` update: bind `k` to `v`, replacing in place an existing
binding of `k` and appending otherwise. -/
def dictInsert (d : List (String × Json)) (k : String) (v : Json) : List (String × Json) :=
  if d.any (fun p => p.1 = k) then d.map (fun p => if p.1 = k then (k, v) else p)
  else d ++ [(k, v)]

/-- Model of `dict(zip(column_names, row))` with cell values serialized. -/
def dictOfZip (cols : List String) (row : List PyValue) : List (String × Json) :=
  (cols.zip row).foldl (fun d p => dictInsert d p.1 p.2.toJson) []

/-- Outcome of `cursor.execute` + `cursor.description` + `fetchall` for
one statement: an execution error (driver exception), a result set, or a
statement producing no result set (`cursor.description` is `None`, so
iterating it raises `TypeError`). -/
inductive DBExec where
  | execError (msg : String) : DBExec
  | resultSet (cols : List String) (rows : List (List PyValue)) : DBExec
  | noResultSet : DBExec
deriving DecidableEq, Inhabited

/-- One run of `query_database` past SQL generation: which statement (if
any) was handed to the database, and the JSON document returned. -/
structure DBRun where
  executed : Option String
  output : Json

/-- The execution half of `query_database` (lines 88–119): clean the
generated SQL, connect, execute it verbatim, and shape the result.
`llmOutput` is the LLM collaborator's raw completion; `connOk` is
whether `get_db_connection` returned a connection; `exec` is the
database's behavior on the executed statement. -/
def query_database_model (llmOutput : String) (connOk : Bool)
    (exec : String → DBExec) : DBRun :=
  let sql := clean_sql llmOutput
  if connOk = false then
    ⟨none, .obj [("error", .str "Failed to connect to the database.")]⟩
  else
    match exec sql with
    | .execError msg => ⟨some sql, .obj [("error", .str ("An error occurred: " ++ msg))]⟩
    | .noResultSet =>
        ⟨some sql, .obj [("error", .str "An error occurred: argument of type NoneType is not iterable")]⟩
    | .resultSet cols rows =>
        if rows = [] then
          ⟨some sql, .obj [("result", .str "Query executed successfully, but no results were found.")]⟩
        else
          ⟨some sql, .arr (rows.map fun row => .obj (dictOfZip cols row))⟩

/-! ### `app/main.py` — the single-turn `/api/chat` handler

The handler body runs inside `try: ... except Exception as e: raise
HTTPException(status_code=500, detail=str(e))`.  Everything raised inside
the `try` — including the `HTTPException(503)` raised when
`llm_with_tools` is still unset — is caught by that blanket `except`
(FastAPI's `HTTPException` subclasses `Exception`) and resurfaces as a
500 whose detail is `str(e)`; Starlette renders an `HTTPException` as
`"<status>: <detail>"`. -/

/-- One declared tool call of the router response (`call["name"]`,
`call["args"]`); the argument mapping is kept opaque. -/
structure ToolCall where
  name : String
  args : String
deriving DecidableEq, Inhabited

/-- The router LLM's response: free text plus declared tool calls. -/
structure LLMResponse where
  content : String
  tool_calls : List ToolCall
deriving Inhabited

/-- The `ChatResponse` pydantic model. -/
structure ChatResponseModel where
  query : String
  result : String
  tools_used : List String
  context_chunks : List Json
  db_results : List Json
deriving Inhabited

/-- What the HTTP client observes: a 200 with a `ChatResponse` body, or
an `HTTPException` with a status code and a `detail` string. -/
inductive ChatOutcome where
  | ok (resp : ChatResponseModel) : ChatOutcome
  | httpError (status : Nat) (detail : String) : ChatOutcome
deriving Inhabited

/-- The collaborators of the single-turn app: whether startup populated
`llm_with_tools`, the tool-router LLM, the two tools (their parsed JSON
documents), and the synthesis LLM. -/
structure SingleTurnEnv where
  llmReady : Bool
  router : String → LLMResponse
  searchTool : String → Json
  dbTool : String → Json
  synth : String → String

/-- The synthesis prompt template of the `search_documents` branch
(lines 118–126), with `{query}` and `{context}` substituted. -/
def searchSynthesisPrompt (query context : String) : String :=
  "\n                Answer the user\x27s question based on the following document excerpts.\n                Keep your answer concise and directly reference the source documents.\n\n                User Question: " ++
    query ++ "\n\n                Documents:\n                " ++ context ++ "\n                "

/-- The synthesis prompt template of the `query_database` branch
(lines 130–138), with `{query}` and `{context}` substituted. -/
def dbSynthesisPrompt (query context : String) : String :=
  "\n                Answer the user\x27s question based on the following database query results.\n                Format the answer clearly. If the result is a list, present it as a list.\n\n                User Question: " ++
    query ++ "\n\n                Database Result:\n                " ++ context ++ "\n                "

/-- Construction of the `ChatResponse` return value (lines 151–159):
`context_chunks`/`db_results` receive `context_data` when the first tool
used matches, else `[]`; pydantic rejects the construction when the
value bound to a `list` field is not a list. -/
def buildChatResponse (query answer : String) (tools_used : List String)
    (context_data : Json) : Except String ChatResponseModel := do
  let ctx ← if tools_used.head? = some "search_documents" then
      match context_data with
      | .arr xs => Except.ok xs
      | _ => Except.error "pydantic validation error for ChatResponse: context_chunks is not a valid list"
    else Except.ok []
  let db ← if tools_used.head? = some "query_database" then
      match context_data with
      | .arr xs => Except.ok xs
      | _ => Except.error "pydantic validation error for ChatResponse: db_results is not a valid list"
    else Except.ok []
  Except.ok ⟨query, answer, tools_used, ctx, db⟩

/-- One run of the single-turn handler: which tool invocations were
dispatched, which prompts were sent to the synthesis LLM, and the HTTP
outcome. -/
structure SingleTurnRun where
  executedTools : List ToolCall
  synthPrompts : List String
  outcome : ChatOutcome

/-- The single-turn `/api/chat` handler (lines 89–163).  The guard
`if not llm_with_tools` raises `HTTPException(503, "Assistant not
ready")`, which the enclosing `except Exception` converts to a 500 with
detail `str(e) = "503: Assistant not ready"`.  With a router response
declaring tool calls, only `response.tool_calls[0]` is dispatched; a
first call naming neither tool leaves `prompt_template` unbound, raising
`NameError` (a 500).  Otherwise the tool's parsed document is serialized
into the matching synthesis prompt and the synthesis LLM produces the
final answer. -/
def chat_single (env : SingleTurnEnv) (query : String) : SingleTurnRun :=
  if env.llmReady = false then
    ⟨[], [], .httpError 500 "503: Assistant not ready"⟩
  else
    let resp := env.router query
    match resp.tool_calls with
    | [] => ⟨[], [], .ok ⟨query, resp.content, [], [], []⟩⟩
    | tc :: rest =>
        let tools_used := (tc :: rest).map ToolCall.name
        if tc.name = "search_documents" then
          let ctx := env.searchTool tc.args
          let prompt := searchSynthesisPrompt query (Json.dumps ctx)
          let answer := env.synth prompt
          match buildChatResponse query answer tools_used ctx with
          | .ok r => ⟨[tc], [prompt], .ok r⟩
          | .error m => ⟨[tc], [prompt], .httpError 500 m⟩
        else if tc.name = "query_database" then
          let ctx := env.dbTool tc.args
          let prompt := dbSynthesisPrompt query (Json.dumps ctx)
          let answer := env.synth prompt
          match buildChatResponse query answer tools_used ctx with
          | .ok r => ⟨[tc], [prompt], .ok r⟩
          | .error m => ⟨[tc], [prompt], .httpError 500 m⟩
        else
          ⟨[], [], .httpError 500 "NameError: name prompt_template is not defined"⟩

/-! ### `main.py` — the multi-turn variant

Tool orchestration is delegated to a LangChain `AgentExecutor`; the
handler consumes its response: `output` (the final answer) and
`intermediate_steps`, one `(action, observation)` pair per tool
invocation the executor ran.  The handler loops over *all* steps,
recording every `action.tool` and merging every list-shaped observation
into `context_chunks`/`db_results`. -/

/-- One executed tool invocation in the agent run: the tool's name and
its parsed JSON observation. -/
structure AgentStep where
  tool : String
  observation : Json

/-- The `AgentExecutor` response consumed by the handler. -/
structure AgentResponse where
  output : Option String
  intermediate_steps : List AgentStep

/-- One iteration of the extraction loop (lines 167–178): append the
step's tool name to `tools_used` and extend
`context_chunks`/`db_results` with the step's observation when it is a
list. -/
def extractStep (acc : List String × List Json × List Json) (s : AgentStep) :
    List String × List Json × List Json :=
  (acc.1 ++ [s.tool],
   if s.tool = "search_documents" then acc.2.1 ++ s.observation.listOrNil else acc.2.1,
   if s.tool = "query_database" then acc.2.2 ++ s.observation.listOrNil else acc.2.2)

/-- The extraction loop over all intermediate steps. -/
def extractSteps (steps : List AgentStep) : List String × List Json × List Json :=
  steps.foldl extractStep ([], [], [])

/-- The multi-turn `/api/chat` handler past the agent invocation (lines
158–186): take the agent's `output` (with the apology fallback), run the
extraction loop when `intermediate_steps` is non-empty, and build the
`ChatResponse`. -/
def chat_multi (query : String) (resp : AgentResponse) : ChatResponseModel :=
  let answer := resp.output.getD "I apologize, but I encountered an error."
  match resp.intermediate_steps with
  | [] => ⟨query, answer, [], [], []⟩
  | s :: rest =>
      let (tu, cc, db) := extractSteps (s :: rest)
      ⟨query, answer, tu, cc, db⟩

/-! ### `main.py` — conversation session store

`current_session_history` is a process-wide slot holding the single
session, `None` when no session exists. -/

/-- One stored message (`message.type`, `message.content`). -/
structure StoredMessage where
  type : String
  content : String
deriving DecidableEq, Inhabited

/-- The `GET /api/chat/history` response body. -/
structure HistoryResponse where
  message_count : Nat
  messages : List (String × String)
deriving DecidableEq, Inhabited

/-- Model of `POST /api/chat/new` (lines 193–198): set the slot to `None` and
acknowledge. -/
def start_new_chat (_st : Option (List StoredMessage)) :
    Option (List StoredMessage) × String :=
  (none, "New chat session started")

/-- Model of `GET /api/chat/history` (lines 201–215): report `message_count = 0`
and no messages when the slot is `None` or the session has no messages,
else the typed messages in order. -/
def get_chat_history : Option (List StoredMessage) → HistoryResponse
  | none => ⟨0, []⟩
  | some msgs =>
      if msgs = [] then ⟨0, []⟩
      else ⟨msgs.length, msgs.map fun m => (m.type, m.content)⟩

/-! ### Concrete probe inputs and witness environments -/

/-- The chunks of the collaborator's answer that pass the threshold
test, stated as an order-preserving filter over the returned triples —
the specification's description of the filtering step. -/
def keptTriples (ts : List (String × ChunkMetadata × Option ℚ)) :
    List (String × ChunkMetadata × Option ℚ) :=
  ts.filter fun t => decide (relevance_threshold ≤ similarityScore t.2.2)

/-- A collaborator answer with a single chunk whose distance `0.7004`
has exact similarity `1 − d = 0.2996 < 0.3`, while the code's rounded
score is `round(0.2996, 3) = 0.3`. -/
def roundingProbe : QueryResults :=
  ⟨some ["gamma"], some [⟨some "doc.md"⟩], some [some (7004/10000)]⟩

/-- A collaborator answer whose first chunk has a `null` distance (score
`0.0`, filtered out) and whose second chunk passes the threshold. -/
def gapProbe : QueryResults :=
  ⟨some ["alpha", "beta"], some [⟨some "s1"⟩, ⟨some "s2"⟩],
   some [none, some (1/10)]⟩

/-- A collaborator answer with one chunk at distance `1` (score `0.0`),
below the threshold. -/
def lowScoreProbe : QueryResults :=
  ⟨some ["quux"], some [⟨some "s"⟩], some [some 1]⟩

/-- A collaborator that answers nearest-neighbor queries with `gapProbe`
only when asked for 3 results. -/
def collabOnlyThree : ChromaQuery → QueryResults :=
  fun req => if req.nResults = 3 then gapProbe else ⟨none, none, none⟩

/-- A collaborator that always answers `gapProbe`. -/
def collabAlways : ChromaQuery → QueryResults :=
  fun _ => gapProbe

/-- A single-turn environment whose router declares two tool calls. -/
def envTwoCalls : SingleTurnEnv :=
  { llmReady := true,
    router := fun _ => ⟨"", [⟨"search_documents", "argA"⟩, ⟨"query_database", "argB"⟩]⟩,
    searchTool := fun _ => Json.arr [Json.obj [("chunk_id", Json.num 1)]],
    dbTool := fun _ => Json.arr [],
    synth := fun _ => "final answer" }

/-- A single-turn environment whose router declares one
`search_documents` call and whose search tool returns an error object. -/
def envToolError : SingleTurnEnv :=
  { llmReady := true,
    router := fun _ => ⟨"", [⟨"search_documents", "plants"⟩]⟩,
    searchTool := fun _ =>
      Json.obj [("error",
        Json.str "No relevant documents found that meet the relevance threshold.")],
    dbTool := fun _ => Json.null,
    synth := fun _ => "synthesized" }

/-- An agent response whose run executed two tool invocations. -/
def agentRespTwoSteps : AgentResponse :=
  ⟨some "both tools ran",
   [⟨"search_documents", Json.arr [Json.obj [("chunk_id", Json.num 1)]]⟩,
    ⟨"query_database", Json.arr [Json.obj [("email", Json.str "a@b.c")]]⟩]⟩

/-- A database behavior answering one fixed SELECT with one row. -/
def execOneRow : String → DBExec := fun s =>
  if s = "SELECT * FROM users" then
    .resultSet ["id", "name", "balance", "active"]
      [[.int 1, .text "Alice", .decimal 1050, .bool true]]
  else .execError "syntax error"

/-! ### Helper lemmas -/

/-- Evaluation of the rounded score at distance `0.7004`. -/
lemma pyRound3_at_7004 : pyRound3 (1 - 7004/10000) = 3/10 := by
  have h : (1 - (7004:ℚ)/10000) * 1000 = 1498/5 := by norm_num
  rw [pyRound3, h, roundHalfEven]
  rw [show ⌊(1498:ℚ)/5⌋ = 299 from by norm_num]
  norm_num

/-- Evaluation of the rounded score at distance `0.1`. -/
lemma pyRound3_at_tenth : pyRound3 (1 - 1/10) = 9/10 := by
  have h : (1 - (1:ℚ)/10) * 1000 = 900 := by norm_num
  rw [pyRound3, h, roundHalfEven]
  rw [show ⌊(900:ℚ)⌋ = 900 from by norm_num]
  norm_num

/-- The similarity score of a `null` distance is strictly below the
relevance threshold. -/
lemma similarityScore_none_lt : similarityScore none < relevance_threshold := by
  rw [similarityScore, relevance_threshold]; norm_num

/-- The filtering loop returns the empty list exactly when every
iterated chunk scores below the threshold. -/
lemma formatChunks_eq_nil_iff (i : Nat) (ts : List (String × ChunkMetadata × Option ℚ)) :
    formatChunks i ts = [] ↔ ∀ t ∈ ts, similarityScore t.2.2 < relevance_threshold := by
  induction ts generalizing i with
  | nil => simp [formatChunks]
  | cons t rest ih =>
      obtain ⟨c, m, d⟩ := t
      by_cases h : relevance_threshold ≤ similarityScore d
      · simp only [formatChunks, if_pos h]
        constructor
        · intro hx; exact absurd hx (List.cons_ne_nil _ _)
        · intro hall; exact absurd (hall (c, m, d) (List.mem_cons_self _ _)) (not_lt.mpr h)
      · simp only [formatChunks, if_neg h, ih]
        constructor
        · intro hall t ht
          rcases List.mem_cons.mp ht with rfl | ht
          · exact not_le.mp h
          · exact hall t ht
        · intro hall t ht; exact hall t (List.mem_cons_of_mem _ ht)

/-- The contents and sources emitted by the filtering loop are exactly
those of the surviving chunks, in order. -/
lemma formatChunks_contents (i : Nat) (ts : List (String × ChunkMetadata × Option ℚ)) :
    (formatChunks i ts).map (fun c => (c.content, c.source)) =
      (keptTriples ts).map (fun t => (t.1, t.2.1.source_file.getD "Unknown document")) := by
  induction ts generalizing i with
  | nil => simp [formatChunks, keptTriples]
  | cons t rest ih =>
      obtain ⟨c, m, d⟩ := t
      by_cases h : relevance_threshold ≤ similarityScore d
      · simp only [formatChunks, if_pos h, keptTriples, List.filter_cons,
          decide_eq_true h, List.map_cons]
        exact congrArg _ (ih (i + 1))
      · simp only [formatChunks, if_neg h, keptTriples, List.filter_cons,
          decide_eq_false h]
        exact ih (i + 1)

/-- The chunk ids emitted by the filtering loop are the 1-based
enumeration indices of the surviving chunks. -/
lemma formatChunks_ids (i : Nat) (ts : List (String × ChunkMetadata × Option ℚ)) :
    (formatChunks i ts).map FormattedChunk.chunk_id =
      ((ts.enumFrom i).filter
        (fun p => decide (relevance_threshold ≤ similarityScore p.2.2.2))).map
        (fun p => p.1 + 1) := by
  induction ts generalizing i with
  | nil => simp [formatChunks]
  | cons t rest ih =>
      obtain ⟨c, m, d⟩ := t
      by_cases h : relevance_threshold ≤ similarityScore d
      · simp only [formatChunks, if_pos h, List.enumFrom, List.filter_cons,
          decide_eq_true h, List.map_cons]
        exact congrArg _ (ih (i + 1))
      · simp only [formatChunks, if_neg h, List.enumFrom, List.filter_cons,
          decide_eq_false h]
        exact ih (i + 1)

/-- Every chunk emitted by the loop started at index `i` carries an id
greater than `i`. -/
lemma formatChunks_id_gt (i : Nat) (ts : List (String × ChunkMetadata × Option ℚ)) :
    ∀ e ∈ formatChunks i ts, i < e.chunk_id := by
  induction ts generalizing i with
  | nil => simp [formatChunks]
  | cons t rest ih =>
      obtain ⟨c, m, d⟩ := t
      intro e he
      by_cases h : relevance_threshold ≤ similarityScore d
      · rw [formatChunks, if_pos h] at he
        rcases List.mem_cons.mp he with rfl | he
        · exact Nat.lt_succ_self i
        · exact Nat.lt_of_succ_lt (ih (i + 1) e he)
      · rw [formatChunks, if_neg h] at he
        exact Nat.lt_of_succ_lt (ih (i + 1) e he)

/-- The emitted chunk ids are strictly increasing. -/
lemma formatChunks_ids_pairwise (i : Nat) (ts : List (String × ChunkMetadata × Option ℚ)) :
    ((formatChunks i ts).map FormattedChunk.chunk_id).Pairwise (· < ·) := by
  induction ts generalizing i with
  | nil => simp [formatChunks]
  | cons t rest ih =>
      obtain ⟨c, m, d⟩ := t
      by_cases h : relevance_threshold ≤ similarityScore d
      · rw [formatChunks, if_pos h, List.map_cons]
        refine List.Pairwise.cons ?_ (ih (i + 1))
        intro b hb
        rcases List.mem_map.mp hb with ⟨e, he, rfl⟩
        exact formatChunks_id_gt (i + 1) rest e he
      · rw [formatChunks, if_neg h]
        exact ih (i + 1)

/-- Membership in the loop's output determines an originating position:
a kept chunk at output position corresponding to source index `k` has id
`i + k + 1`, content and source taken from the source triple, and a
passing score. -/
lemma mem_formatChunks {e : FormattedChunk} :
    ∀ {i : Nat} {ts : List (String × ChunkMetadata × Option ℚ)},
      e ∈ formatChunks i ts →
      ∃ k t, ts.get? k = some t ∧ relevance_threshold ≤ similarityScore t.2.2 ∧
        e.chunk_id = i + k + 1 := by
  intro i ts
  induction ts generalizing i with
  | nil => intro h; simp [formatChunks] at h
  | cons t rest ih =>
      obtain ⟨c, m, d⟩ := t
      intro he
      by_cases h : relevance_threshold ≤ similarityScore d
      · rw [formatChunks, if_pos h] at he
        rcases List.mem_cons.mp he with rfl | he
        · exact ⟨0, (c, m, d), rfl, h, rfl⟩
        · rcases ih he with ⟨k, t, hget, hpass, hid⟩
          exact ⟨k + 1, t, hget, hpass, by omega⟩
      · rw [formatChunks, if_neg h] at he
        rcases ih he with ⟨k, t, hget, hpass, hid⟩
        exact ⟨k + 1, t, hget, hpass, by omega⟩

/-- Projections of an indexed element of a zipped list. -/
lemma get?_zip {α β : Type} :
    ∀ (l₁ : List α) (l₂ : List β) (i : Nat) (p : α × β),
      (l₁.zip l₂).get? i = some p → l₁.get? i = some p.1 ∧ l₂.get? i = some p.2 := by
  intro l₁
  induction l₁ with
  | nil => intro l₂ i p h; simp [List.zip] at h
  | cons a as ih =>
      intro l₂ i p h
      cases l₂ with
      | nil => simp [List.zip] at h
      | cons b bs =>
          cases i with
          | zero =>
              rw [List.zip_cons_cons] at h
              simp only [List.get?] at h ⊢
              cases h; exact ⟨rfl, rfl⟩
          | succ n =>
              rw [List.zip_cons_cons] at h
              simp only [List.get?] at h ⊢
              exact ih bs n p h

/-- Evaluation of the rounded score at distance `1`. -/
lemma pyRound3_at_one : pyRound3 (1 - 1) = 0 := by
  have h : ((1:ℚ) - 1) * 1000 = 0 := by norm_num
  rw [pyRound3, h, roundHalfEven]
  norm_num

/-- Evaluation fact: `search_documents` keeps the `roundingProbe` chunk: its rounded
score equals the threshold. -/
lemma roundingProbe_eval :
    search_documents_core roundingProbe = .results [⟨1, "gamma", "doc.md"⟩] := by
  have hs : similarityScore (some (7004/10000)) = 3/10 := by
    rw [similarityScore]; exact pyRound3_at_7004
  have hpass : relevance_threshold ≤ similarityScore (some (7004/10000)) := by
    rw [hs, relevance_threshold]
  rw [show roundingProbe =
        ⟨some ["gamma"], some [⟨some "doc.md"⟩], some [some (7004/10000)]⟩ from rfl]
  simp only [search_documents_core, zippedTriples, metadatasOrDefault,
    distancesOrDefault, Option.getD, List.zip_cons_cons, List.zip_nil_right,
    formatChunks, if_pos hpass]
  rfl

/-- Evaluation fact: `search_documents` drops the null-distance chunk of `gapProbe` and
keeps its second chunk under the original enumeration index. -/
lemma gapProbe_eval :
    search_documents_core gapProbe = .results [⟨2, "beta", "s2"⟩] := by
  have hs : similarityScore (some (1/10)) = 9/10 := by
    rw [similarityScore]; exact pyRound3_at_tenth
  have hfail : ¬ relevance_threshold ≤ similarityScore none := not_le.mpr similarityScore_none_lt
  have hpass : relevance_threshold ≤ similarityScore (some (1/10)) := by
    rw [hs, relevance_threshold]; norm_num
  rw [show gapProbe = ⟨some ["alpha", "beta"], some [⟨some "s1"⟩, ⟨some "s2"⟩],
        some [none, some (1/10)]⟩ from rfl]
  simp only [search_documents_core, zippedTriples, metadatasOrDefault,
    distancesOrDefault, Option.getD, List.zip_cons_cons, List.zip_nil_right,
    formatChunks, if_pos hpass, if_neg hfail]
  rfl

/-- Evaluation fact: `search_documents` rejects the single `lowScoreProbe` chunk. -/
lemma lowScoreProbe_eval :
    search_documents_core lowScoreProbe = .errorBelowThreshold := by
  have hs : similarityScore (some 1) = 0 := by
    rw [similarityScore]; exact pyRound3_at_one
  have hfail : ¬ relevance_threshold ≤ similarityScore (some 1) := by
    rw [hs, relevance_threshold]; norm_num
  rw [show lowScoreProbe = ⟨some ["quux"], some [⟨some "s"⟩], some [some 1]⟩ from rfl]
  simp only [search_documents_core, zippedTriples, metadatasOrDefault,
    distancesOrDefault, Option.getD, List.zip_cons_cons, List.zip_nil_right,
    formatChunks, if_neg hfail]
  rfl

/-- Every chunk of `lowScoreProbe` scores below the threshold. -/
lemma lowScoreProbe_all_below :
    ∀ t ∈ zippedTriples lowScoreProbe, similarityScore t.2.2 < relevance_threshold := by
  intro t ht
  have hts : zippedTriples lowScoreProbe = [("quux", ⟨some "s"⟩, some 1)] := rfl
  rw [hts, List.mem_singleton] at ht
  subst ht
  show similarityScore (some 1) < relevance_threshold
  rw [show similarityScore (some 1) = 0 from by rw [similarityScore]; exact pyRound3_at_one,
    relevance_threshold]
  norm_num

/-- The first component accumulated by the extraction loop is the
accumulator's first component followed by every step's tool name. -/
lemma foldl_extractStep_fst (steps : List AgentStep) :
    ∀ acc : List String × List Json × List Json,
      (steps.foldl extractStep acc).1 = acc.1 ++ steps.map AgentStep.tool := by
  induction steps with
  | nil => intro acc; simp
  | cons s rest ih =>
      intro acc
      rw [List.foldl_cons, ih, List.map_cons]
      simp [extractStep, List.append_assoc]

/-- The keys of a zipped pair list form a sublist of the key list. -/
lemma zip_keys_sublist {β : Type} :
    ∀ (cols : List String) (row : List β), ((cols.zip row).map Prod.fst).Sublist cols := by
  intro cols
  induction cols with
  | nil => intro row; simp [List.zip]
  | cons c cs ih =>
      intro row
      cases row with
      | nil => simp [List.zip]
      | cons v vs =>
          rw [List.zip_cons_cons, List.map_cons]
          exact List.Sublist.cons₂ c (ih vs)

/-- Folding `dictInsert` over pairs with pairwise-distinct keys, none of
which occurs in the accumulator, appends the serialized pairs. -/
lemma foldl_dictInsert (ps : List (String × PyValue)) :
    ∀ acc : List (String × Json),
      (ps.map Prod.fst).Nodup →
      (∀ p ∈ ps, ∀ q ∈ acc, q.1 ≠ p.1) →
      ps.foldl (fun d p => dictInsert d p.1 p.2.toJson) acc
        = acc ++ ps.map (fun p => (p.1, p.2.toJson)) := by
  induction ps with
  | nil => intro acc _ _; simp
  | cons p rest ih =>
      intro acc hnd hacc
      rw [List.map_cons, List.nodup_cons] at hnd
      have hnew : ¬ acc.any (fun q => q.1 = p.1) := by
        rw [List.any_eq_true]
        rintro ⟨q, hq, hq1⟩
        exact hacc p (List.mem_cons_self _ _) q hq (of_decide_eq_true hq1)
      rw [List.foldl_cons]
      rw [show dictInsert acc p.1 p.2.toJson = acc ++ [(p.1, p.2.toJson)] from by
        rw [dictInsert, if_neg hnew]]
      rw [ih (acc ++ [(p.1, p.2.toJson)]) hnd.2 ?_]
      · simp [List.append_assoc]
      · intro p' hp' q hq
        rcases List.mem_append.mp hq with hq | hq
        · exact hacc p' (List.mem_cons_of_mem _ hp') q hq
        · rw [List.mem_singleton] at hq
          subst hq
          intro hkey
          exact hnd.1 (hkey ▸ List.mem_map_of_mem Prod.fst hp')

/-- With duplicate-free column names, `dict(zip(cols, row))` is the
plain column-to-value association in column order. -/
lemma dictOfZip_eq_map (cols : List String) (row : List PyValue) (h : cols.Nodup) :
    dictOfZip cols row = (cols.zip row).map (fun p => (p.1, p.2.toJson)) := by
  have hnd : ((cols.zip row).map Prod.fst).Nodup :=
    h.sublist (zip_keys_sublist cols row)
  rw [dictOfZip, foldl_dictInsert (cols.zip row) [] hnd (by intro p _ q hq; simp at hq)]
  simp

/-! ### Claims about `search_documents` -/

/-- Claim C3 (amended): for every collaborator answer in which no
returned chunk has a rounded similarity score `round(1 − distance, 3)`
of at least 0.3 — including an answer with no chunks at all —
`search_documents` returns a JSON error object; and it never returns an
empty JSON array. -/
theorem c3_error_object_amended :
    (∀ r : QueryResults,
        (∀ t ∈ zippedTriples r, similarityScore t.2.2 < relevance_threshold) →
        ((search_documents_core r).toJson).isErrorObject = true)
    ∧ (∀ r : QueryResults, (search_documents_core r).toJson ≠ Json.arr []) := by
  constructor
  · intro r hall
    obtain ⟨docs, ms, ds⟩ := r
    cases docs with
    | none => rfl
    | some l =>
        cases l with
        | nil => rfl
        | cons d rest =>
            have hfc : formatChunks 0 (zippedTriples ⟨some (d :: rest), ms, ds⟩) = [] :=
              (formatChunks_eq_nil_iff 0 _).mpr hall
            simp only [search_documents_core, if_pos hfc]
            rfl
  · intro r
    obtain ⟨docs, ms, ds⟩ := r
    cases docs with
    | none => intro h; exact Json.noConfusion h
    | some l =>
        cases l with
        | nil => intro h; exact Json.noConfusion h
        | cons d rest =>
            by_cases hfc : formatChunks 0 (zippedTriples ⟨some (d :: rest), ms, ds⟩) = []
            · simp only [search_documents_core, if_pos hfc]
              intro h; exact Json.noConfusion h
            · simp only [search_documents_core, if_neg hfc]
              intro h
              injection h with h'
              exact hfc (List.map_eq_nil_iff.mp h')

/-- Claim C3 (counterexample to the claim as stated): `roundingProbe`
returns one chunk whose exact similarity `1 − distance = 0.2996` is
below 0.3, so the claim's hypothesis holds, yet `search_documents`
returns a non-empty result array and no error object (the code compares
the rounded score `round(0.2996, 3) = 0.3` against the threshold). -/
theorem c3_rounding_counterexample :
    zippedTriples roundingProbe = [("gamma", ⟨some "doc.md"⟩, some (7004/10000))]
    ∧ (1 : ℚ) - 7004/10000 < relevance_threshold
    ∧ ((search_documents_core roundingProbe).toJson).isErrorObject = false
    ∧ (search_documents_core roundingProbe).resultChunks ≠ [] := by
  refine ⟨rfl, ?_, ?_, ?_⟩
  · rw [relevance_threshold]; norm_num
  · rw [roundingProbe_eval]; rfl
  · rw [roundingProbe_eval]
    intro h
    exact List.noConfusion h

/-- Claim C3 witness: at `lowScoreProbe` (one chunk scoring 0.0) the
amended claim yields an error object and rules out an empty array. -/
theorem c3_error_object_witness :
    ((search_documents_core lowScoreProbe).toJson).isErrorObject = true
    ∧ (search_documents_core lowScoreProbe).toJson ≠ Json.arr [] :=
  ⟨c3_error_object_amended.1 lowScoreProbe lowScoreProbe_all_below,
   c3_error_object_amended.2 lowScoreProbe⟩

/-- Claim C4 (amended): `search_documents` consults the collaborator
only through the single request for the 3 nearest chunks of the query,
and the returned array consists of exactly those returned chunks whose
rounded similarity score `round(1 − distance, 3)` is at least 0.3, in
the collaborator's own order with no re-ranking. -/
theorem c4_filter_amended :
    (∀ (c₁ c₂ : ChromaQuery → QueryResults) (q : String),
        c₁ ⟨[q], 3⟩ = c₂ ⟨[q], 3⟩ → search_documents c₁ q = search_documents c₂ q)
    ∧ (∀ (collab : ChromaQuery → QueryResults) (q : String),
        ((search_documents collab q).resultChunks).map (fun c => (c.content, c.source))
          = (keptTriples (zippedTriples (collab ⟨[q], 3⟩))).map
              (fun t => (t.1, t.2.1.source_file.getD "Unknown document"))) := by
  constructor
  · intro c₁ c₂ q h
    rw [search_documents, search_documents, h]
  · intro collab q
    rw [search_documents]
    rcases hr : collab ⟨[q], 3⟩ with ⟨docs, ms, ds⟩
    cases docs with
    | none => simp [search_documents_core, SearchOutput.resultChunks, zippedTriples,
        keptTriples]
    | some l =>
        cases l with
        | nil => simp [search_documents_core, SearchOutput.resultChunks, zippedTriples,
            keptTriples, metadatasOrDefault, distancesOrDefault]
        | cons d rest =>
            have hcontents := formatChunks_contents 0 (zippedTriples ⟨some (d :: rest), ms, ds⟩)
            by_cases hfc : formatChunks 0 (zippedTriples ⟨some (d :: rest), ms, ds⟩) = []
            · simp only [search_documents_core, if_pos hfc, SearchOutput.resultChunks]
              rw [← hcontents, hfc]
            · simp only [search_documents_core, if_neg hfc, SearchOutput.resultChunks]
              exact hcontents

/-- Claim C4 (counterexample to the claim as stated): the single
`roundingProbe` chunk has exact similarity `1 − distance = 0.2996`,
strictly below the 0.3 threshold, yet it is returned — the code filters
by the rounded score `round(0.2996, 3) = 0.3`, not by `1 − distance`. -/
theorem c4_rounding_counterexample :
    search_documents (fun _ => roundingProbe) "storage engines"
      = .results [⟨1, "gamma", "doc.md"⟩]
    ∧ (1 : ℚ) - 7004/10000 < relevance_threshold := by
  refine ⟨?_, ?_⟩
  · rw [search_documents]; exact roundingProbe_eval
  · rw [relevance_threshold]; norm_num

/-- Claim C4 witness: two collaborators agreeing on the
`n_results = 3` request produce identical outputs. -/
theorem c4_filter_witness :
    search_documents collabOnlyThree "plant care" = search_documents collabAlways "plant care" :=
  c4_filter_amended.1 collabOnlyThree collabAlways "plant care" rfl

/-- Claim C5 (amended): in a non-error result, each entry's `chunk_id`
is `i + 1` for the chunk's 0-based enumeration index `i` in the
collaborator's returned list — i.e. the 1-based rank in that list, not
the position in the filtered array — so the ids are strictly increasing
but need not be sequential from 1 when an earlier chunk is filtered
out. -/
theorem c5_chunk_id_amended :
    ∀ (docs : List String) (ms : List ChunkMetadata) (ds : List (Option ℚ)),
      ((search_documents_core ⟨some docs, some ms, some ds⟩).resultChunks).map
          FormattedChunk.chunk_id
        = (((docs.zip (ms.zip ds)).enumFrom 0).filter
            (fun p => decide (relevance_threshold ≤ similarityScore p.2.2.2))).map
            (fun p => p.1 + 1)
      ∧ (((search_documents_core ⟨some docs, some ms, some ds⟩).resultChunks).map
          FormattedChunk.chunk_id).Pairwise (· < ·) := by
  intro docs ms ds
  cases docs with
  | nil =>
      constructor
      · simp [search_documents_core, SearchOutput.resultChunks]
      · simp [search_documents_core, SearchOutput.resultChunks]
  | cons d rest =>
      have hids := formatChunks_ids 0 (zippedTriples ⟨some (d :: rest), some ms, some ds⟩)
      have hzt : zippedTriples ⟨some (d :: rest), some ms, some ds⟩
          = (d :: rest).zip (ms.zip ds) := rfl
      by_cases hfc : formatChunks 0 (zippedTriples ⟨some (d :: rest), some ms, some ds⟩) = []
      · constructor
        · simp only [search_documents_core, if_pos hfc, SearchOutput.resultChunks]
          rw [← hzt, ← hids, hfc]
        · simp only [search_documents_core, if_pos hfc, SearchOutput.resultChunks]
          simp
      · constructor
        · simp only [search_documents_core, if_neg hfc, SearchOutput.resultChunks]
          rw [← hzt]
          exact hids
        · simp only [search_documents_core, if_neg hfc, SearchOutput.resultChunks]
          exact formatChunks_ids_pairwise 0 _

/-- Claim C5 (counterexample to the claim as stated): at `gapProbe` the
first returned chunk is filtered out (null distance) and the second is
kept, so the first — and only — entry of the returned array has
`chunk_id = 2`, not `1`. -/
theorem c5_gap_counterexample :
    search_documents (fun _ => gapProbe) "renewable energy" = .results [⟨2, "beta", "s2"⟩]
    ∧ ((search_documents (fun _ => gapProbe) "renewable energy").resultChunks.map
        FormattedChunk.chunk_id).head? = some 2
    ∧ (2 : Nat) ≠ 1 := by
  have h : search_documents (fun _ => gapProbe) "renewable energy"
      = .results [⟨2, "beta", "s2"⟩] := by
    rw [search_documents]; exact gapProbe_eval
  refine ⟨h, ?_, by decide⟩
  rw [h]
  rfl

/-- Claim C10: a chunk whose distance is `null` is assigned similarity
score 0.0, which is below the 0.3 threshold, so no entry of the returned
array originates from a null-distance position (`chunk_id = i + 1` for a
null distance at index `i` never occurs). -/
theorem c10_null_distance_excluded :
    similarityScore none = 0
    ∧ similarityScore none < relevance_threshold
    ∧ ∀ (docs : List String) (ms : List ChunkMetadata) (ds : List (Option ℚ)) (i : Nat),
        ds.get? i = some none →
        ∀ e ∈ (search_documents_core ⟨some docs, some ms, some ds⟩).resultChunks,
          e.chunk_id ≠ i + 1 := by
  refine ⟨rfl, similarityScore_none_lt, ?_⟩
  intro docs ms ds i hds e he hid
  cases docs with
  | nil => simp [search_documents_core, SearchOutput.resultChunks] at he
  | cons d rest =>
      by_cases hfc : formatChunks 0 (zippedTriples ⟨some (d :: rest), some ms, some ds⟩) = []
      · simp only [search_documents_core, if_pos hfc, SearchOutput.resultChunks] at he
        exact (List.not_mem_nil e) he
      · simp only [search_documents_core, if_neg hfc, SearchOutput.resultChunks] at he
        rcases mem_formatChunks he with ⟨k, t, hget, hpass, hkid⟩
        have hk : k = i := by omega
        subst hk
        have hget' : ((d :: rest).zip (ms.zip ds)).get? k = some t := hget
        have h1 := get?_zip (d :: rest) (ms.zip ds) k t hget'
        have h2 := get?_zip ms ds k t.2 h1.2
        have hnone : t.2.2 = none := by
          rw [h2.2] at hds
          exact Option.some_injective _ hds
        rw [hnone] at hpass
        exact absurd hpass (not_le.mpr similarityScore_none_lt)

/-- Claim C10 witness: at `gapProbe` (null distance at index 0), the
kept entry's id differs from `0 + 1`. -/
theorem c10_null_distance_witness :
    similarityScore none = 0
    ∧ FormattedChunk.chunk_id ⟨2, "beta", "s2"⟩ ≠ 0 + 1 := by
  refine ⟨c10_null_distance_excluded.1, ?_⟩
  refine c10_null_distance_excluded.2.2 ["alpha", "beta"] [⟨some "s1"⟩, ⟨some "s2"⟩]
    [none, some (1/10)] 0 rfl ⟨2, "beta", "s2"⟩ ?_
  rw [show (⟨some ["alpha", "beta"], some [⟨some "s1"⟩, ⟨some "s2"⟩],
      some [none, some (1/10)]⟩ : QueryResults) = gapProbe from rfl, gapProbe_eval]
  exact List.mem_singleton_self _

/-! ### Claims about `query_database` -/

/-- Claim C2: whenever a connection is available, the statement handed
to the database is exactly the LLM's production after code-fence
stripping — for every production, with no restriction on statement
kind — and fence stripping alone is the only transformation (e.g. a
fenced `DROP TABLE` and a bare `DELETE` both reach execution
unchanged). -/
theorem c2_sql_executed_verbatim :
    (∀ (llmOutput : String) (exec : String → DBExec),
        (query_database_model llmOutput true exec).executed = some (clean_sql llmOutput))
    ∧ clean_sql "```sql\nDROP TABLE users;\n```" = "DROP TABLE users;"
    ∧ clean_sql "DELETE FROM users;" = "DELETE FROM users;" := by
  refine ⟨?_, by decide, by decide⟩
  intro s exec
  cases hexec : exec (clean_sql s) with
  | execError msg => simp [query_database_model, hexec]
  | resultSet cols rows =>
      by_cases hrows : rows = [] <;> simp [query_database_model, hexec, hrows]
  | noResultSet => simp [query_database_model, hexec]

/-- Claim C8: `query_database` returns a connection-error object when no
connection is available; an execution-error object when the driver
raises; an object (not an array) noting the empty result for zero rows;
and for one or more rows an array of objects mapping each column name to
its value, with non-JSON-native values stringified. -/
theorem c8_result_shaping :
    ∀ (llmOutput : String) (exec : String → DBExec) (cols : List String)
      (rows : List (List PyValue)) (msg : String),
      ((query_database_model llmOutput false exec).output
          = Json.obj [("error", Json.str "Failed to connect to the database.")])
      ∧ (exec (clean_sql llmOutput) = .execError msg →
          (query_database_model llmOutput true exec).output
            = Json.obj [("error", Json.str ("An error occurred: " ++ msg))])
      ∧ (exec (clean_sql llmOutput) = .resultSet cols rows → rows = [] →
          (query_database_model llmOutput true exec).output
            = Json.obj [("result",
                Json.str "Query executed successfully, but no results were found.")])
      ∧ (exec (clean_sql llmOutput) = .resultSet cols rows → rows ≠ [] → cols.Nodup →
          (query_database_model llmOutput true exec).output
            = Json.arr (rows.map fun row =>
                Json.obj ((cols.zip row).map fun p => (p.1, p.2.toJson)))) := by
  intro llmOutput exec cols rows msg
  refine ⟨?_, ?_, ?_, ?_⟩
  · simp [query_database_model]
  · intro hexec; simp [query_database_model, hexec]
  · intro hexec hrows; simp [query_database_model, hexec, hrows]
  · intro hexec hrows hnodup
    simp only [query_database_model, hexec, Bool.true_eq_false, if_neg, ite_false]
    rw [if_neg hrows]
    refine congrArg Json.arr (List.map_congr_left ?_)
    intro row _
    rw [dictOfZip_eq_map cols row hnodup]

/-- Claim C8 witness: one row with an integer, a string, a `NUMERIC`
decimal and a boolean produces the expected array of one object, the
decimal stringified as `"10.50"`. -/
theorem c8_result_shaping_witness :
    (query_database_model "SELECT * FROM users" true execOneRow).output
      = Json.arr [Json.obj [("id", Json.num 1), ("name", Json.str "Alice"),
          ("balance", Json.str "10.50"), ("active", Json.bool true)]] := by
  have hexec : execOneRow (clean_sql "SELECT * FROM users")
      = DBExec.resultSet ["id", "name", "balance", "active"]
        [[.int 1, .text "Alice", .decimal 1050, .bool true]] := by decide
  have h := (c8_result_shaping "SELECT * FROM users" execOneRow
      ["id", "name", "balance", "active"]
      [[.int 1, .text "Alice", .decimal 1050, .bool true]] "unused").2.2.2
      hexec (by decide) (by decide)
  rw [h]
  rfl

/-! ### Claims about the chat handlers -/

/-- Claim C1 (amended): in the single-turn variant at most one tool
invocation is dispatched per request, and any dispatched invocation is
the first declared call of the router's response; in the multi-turn
variant the handler processes every intermediate step of the agent run —
all executed tool calls, possibly several per request, appear in
`tools_used`. -/
theorem c1_tool_dispatch_amended :
    (∀ (env : SingleTurnEnv) (q : String),
        (chat_single env q).executedTools.length ≤ 1
        ∧ ∀ tc ∈ (chat_single env q).executedTools,
            (env.router q).tool_calls.head? = some tc)
    ∧ (∀ (q : String) (resp : AgentResponse),
        (chat_multi q resp).tools_used = resp.intermediate_steps.map AgentStep.tool) := by
  constructor
  · intro env q
    by_cases hready : env.llmReady = false
    · simp [chat_single, hready]
    · have hready' : env.llmReady = true := by
        revert hready; cases env.llmReady <;> simp
      rcases htc : (env.router q).tool_calls with _ | ⟨tc, rest⟩
      · simp [chat_single, hready', htc]
      · by_cases h1 : tc.name = "search_documents"
        · simp [chat_single, hready', htc, h1]
          split <;> simp
        · by_cases h2 : tc.name = "query_database"
          · simp [chat_single, hready', htc, h1, h2]
            split <;> simp
          · simp [chat_single, hready', htc, h1, h2]
  · intro q resp
    obtain ⟨out, steps⟩ := resp
    cases steps with
    | nil => rfl
    | cons s rest =>
        show (extractSteps (s :: rest)).1 = (s :: rest).map AgentStep.tool
        rw [extractSteps, foldl_extractStep_fst]
        rfl

/-- Claim C1 witness: a router response declaring two tool calls leads
to at most one dispatched invocation, and the dispatched one is the
first declared call. -/
theorem c1_tool_dispatch_witness :
    (chat_single envTwoCalls "hi").executedTools.length ≤ 1
    ∧ (envTwoCalls.router "hi").tool_calls.head? = some ⟨"search_documents", "argA"⟩ :=
  ⟨(c1_tool_dispatch_amended.1 envTwoCalls "hi").1,
   (c1_tool_dispatch_amended.1 envTwoCalls "hi").2 ⟨"search_documents", "argA"⟩ (by decide)⟩

/-- Claim C1 (counterexample to the claim as stated): in the multi-turn
variant a request whose agent run executed two tool invocations reports
both of them — the second invocation is processed, not ignored, and its
result lands in `db_results`. -/
theorem c1_multi_turn_counterexample :
    (chat_multi "active user emails" agentRespTwoSteps).tools_used
      = ["search_documents", "query_database"]
    ∧ (chat_multi "active user emails" agentRespTwoSteps).tools_used.length = 2
    ∧ (chat_multi "active user emails" agentRespTwoSteps).db_results
      = [Json.obj [("email", Json.str "a@b.c")]] :=
  ⟨rfl, rfl, rfl⟩

/-- Claim C6: with `llm_with_tools` still unset, the single-turn handler
reports HTTP 500 — not 503 — because the `HTTPException(503, "Assistant
not ready")` raised inside the `try` block is caught by the blanket
`except Exception` and re-raised as
`HTTPException(500, detail=str(e))`. -/
theorem c6_uninitialized_returns_500 :
    ∀ (router : String → LLMResponse) (searchTool dbTool : String → Json)
      (synth : String → String) (q : String),
      (chat_single ⟨false, router, searchTool, dbTool, synth⟩ q).outcome
        = ChatOutcome.httpError 500 "503: Assistant not ready" :=
  fun _ _ _ _ _ => rfl

/-- Claim C7: whatever JSON document the dispatched tool returns — an
error object included — the handler serializes it into the matching
synthesis prompt and invokes the synthesis model exactly once with that
prompt; nothing in this path inspects whether the document is an error
object. -/
theorem c7_error_threaded_to_synthesis :
    ∀ (env : SingleTurnEnv) (q : String) (tc : ToolCall) (rest : List ToolCall),
      env.llmReady = true →
      (env.router q).tool_calls = tc :: rest →
      ((tc.name = "search_documents" →
          (chat_single env q).synthPrompts
            = [searchSynthesisPrompt q (Json.dumps (env.searchTool tc.args))])
        ∧ (tc.name = "query_database" →
          (chat_single env q).synthPrompts
            = [dbSynthesisPrompt q (Json.dumps (env.dbTool tc.args))])) := by
  intro env q tc rest hready htc
  constructor
  · intro h1
    simp [chat_single, hready, htc, h1]
    split <;> simp
  · intro h2
    have h1 : ¬ tc.name = "search_documents" := by
      rw [h2]; decide
    simp [chat_single, hready, htc, h1, h2]
    split <;> simp

/-- Claim C7 witness: with the search tool returning an error object,
the synthesis model is invoked once, on the prompt embedding that very
error document. -/
theorem c7_error_threaded_witness :
    (chat_single envToolError "how do I propagate pothos").synthPrompts
      = [searchSynthesisPrompt "how do I propagate pothos"
          (Json.dumps (Json.obj [("error",
            Json.str "No relevant documents found that meet the relevance threshold.")]))] :=
  (c7_error_threaded_to_synthesis envToolError "how do I propagate pothos"
      ⟨"search_documents", "plants"⟩ [] rfl rfl).1 rfl

/-- Claim C9: `POST /api/chat/new` empties the session slot, so an
immediately following `GET /api/chat/history` reports zero messages and
an empty message list — from any prior store state. -/
theorem c9_new_chat_clears_history :
    ∀ st : Option (List StoredMessage),
      (start_new_chat st).1 = none
      ∧ get_chat_history (start_new_chat st).1 = ⟨0, []⟩ :=
  fun _ => ⟨rfl, rfl⟩
